/-
Verification of the turn-resolution engine of a browser RPG.

The development shallowly embeds the JavaScript modules of the repository
(config.js, utils.js, state.js, api.js / the AI module, game-engine.js) as
executable Lean definitions and proves the specification claims about them.

Modelling conventions, used throughout:
* JS numbers that the engine treats as integers (hp, xp, difficulty, ...)
  are modelled as `Int`; `Math.floor(a / b)` for a positive literal divisor
  `b` is floor division, i.e. `Int.ediv` (which agrees with floor division
  whenever the divisor is positive).
* A JS field that may be absent (`undefined`) or hold `null` is an
  `Option`; JS truthiness of a string field is `some s` with `s` nonempty.
* `JSON.parse` is a host builtin; each validator therefore takes the parse
  result (`Option` of the parsed record, `none` = the parse threw) as an
  explicit argument next to the raw text, exactly mirroring the `try/catch`
  around `JSON.parse` in the source.
* External nondeterminism (the d20 draw, the success or failure of a
  generator network call) enters as explicit parameters of the engine
  functions, so every run of the engine is a value of a total function.
* DOM / animation / logging side effects of the source are not part of the
  game state and are dropped; notifications that the source displays are
  kept as the list of shown narration strings where a claim depends on them.
-/
import Mathlib

namespace RPG

/-- config.js: bonus added to a check when the special ability applies. -/
def SPECIAL_ABILITY_BONUS : Int := 5

/-- config.js: size of the retained recent-turns window. -/
def RECENT_TURNS_TO_KEEP : Nat := 5

/-- config.js: cap on the number of key NPCs. -/
def MAX_KEY_NPCS : Nat := 10

/-- config.js: starting (and maximum) HP of a fresh character. -/
def DEFAULT_STARTING_HP : Int := 100

/-- state.js: the five ability scores of a character. -/
structure Stats where
  STR : Int
  DEX : Int
  INTL : Int
  CHA : Int
  WIL : Int
deriving Repr, DecidableEq

/-- state.js: the character's special ability (name, governed stat, text). -/
structure SpecialAbility where
  name : String
  stat : String
  description : String
deriving Repr, DecidableEq

/-- state.js: the player character record. -/
structure Character where
  name : String
  gender : String
  level : Int
  xp : Int
  xpToNext : Int
  hp : Int
  maxHp : Int
  stats : Stats
  specialAbility : SpecialAbility
deriving Repr, DecidableEq

/-- state.js: a registered key NPC. -/
structure NPC where
  name : String
  role : String
  personality : String
  appearance : String
  relationship : Int
deriving Repr, DecidableEq

/-- api.js schema: the `new_npc` payload of a generator response.  All
fields except the name may be absent (the engine substitutes defaults). -/
structure NPCInput where
  name : String
  role : Option String
  personality : Option String
  appearance : Option String
  relationship : Option Int
deriving Repr, DecidableEq

/-- api.js schema: one entry of the `npc_updates` payload. -/
structure NPCUpdate where
  name : String
  change : Option Int
  reason : Option String
deriving Repr, DecidableEq

/-- api.js schema: the `event` object of a primary generator response, as
parsed and before/after validation.  Every field may be absent or of the
wrong JS type; a well-typed value is `some`. -/
structure RawEvent where
  etype : Option String
  stat : Option String
  difficulty : Option Int
  severity : Option String
  success_hint : Option String
  fail_hint : Option String
deriving Repr, DecidableEq

/-- utils.js `resolveDiceCheck`: the result record of a d20 check. -/
structure DiceResult where
  roll : Int
  bonus : Int
  total : Int
  difficulty : Int
  passed : Bool
deriving Repr, DecidableEq

/-- JS `Math.floor(a / b)` for a positive integer divisor: floor division.
`Int.ediv` equals floor division whenever the divisor is positive. -/
def jsFloorDiv (a b : Int) : Int := a / b

/-- JS truthiness of a possibly-absent string field: present and nonempty. -/
def strTruthy : Option String → Bool
  | some s => s != ""
  | none => false

/-- JS string interpolation of a possibly-absent string value. -/
def jsShowOptStr : Option String → String
  | some s => s
  | none => "undefined"

/-- JS string interpolation of a possibly-absent numeric value. -/
def jsShowOptInt : Option Int → String
  | some n => toString n
  | none => "undefined"

/-- JS `list.slice(-n)`: the last `n` elements (all of them if fewer). -/
def jsSliceLast {α : Type} (l : List α) (n : Nat) : List α :=
  l.drop (l.length - n)

/-- JS `indexOf` + `splice(idx, 1)`: remove the first occurrence, if any. -/
def jsRemoveFirst : List String → String → List String
  | [], _ => []
  | x :: xs, s => if x = s then xs else x :: jsRemoveFirst xs s

/-- utils.js `statFullName`: expand a stat abbreviation (fallback: itself). -/
def statFullName (abbr : String) : String :=
  if abbr = "STR" then "Strength"
  else if abbr = "DEX" then "Dexterity"
  else if abbr = "INT" then "Intelligence"
  else if abbr = "CHA" then "Charisma"
  else if abbr = "WIL" then "Willpower"
  else abbr

/-- api.js: strip markdown code fences, per
`cleaned.replace(/^```(?:json)?\s*/, '').replace(/\s*```$/, '')` applied to
the trimmed text (the second replace removes a trailing fence together with
the whitespace in front of it, and only when the text ends in a fence). -/
def stripCodeFences (raw : String) : String :=
  let t := raw.trim
  if t.startsWith "```" then
    let t1 := t.drop 3
    let t2 := if t1.startsWith "json" then t1.drop 4 else t1
    let t3 := t2.trimLeft
    let t4 := t3.trimRight
    if t4.endsWith "```" then (t4.dropRight 3).trimRight else t3
  else t

/-- game-engine.js `applyHP`: clamp the changed HP into `[0, maxHp]`. -/
def applyHP (c : Character) (change : Int) : Character :=
  { c with hp := max 0 (min c.maxHp (c.hp + change)) }

/-- game-engine.js `applyXP`, body of one iteration of the level-up loop:
`xp -= xpToNext; level++; xpToNext = Math.floor(xpToNext * 1.5);
maxHp += 10; hp = Math.min(hp + 10, maxHp)` (the source increments `maxHp`
before recomputing `hp`, hence `min (hp + 10) (maxHp + 10)`). -/
def levelStep (c : Character) : Character :=
  { c with
    xp := c.xp - c.xpToNext
    level := c.level + 1
    xpToNext := jsFloorDiv (3 * c.xpToNext) 2
    maxHp := c.maxHp + 10
    hp := min (c.hp + 10) (c.maxHp + 10) }

/-- game-engine.js `applyXP`, the `while (xp >= xpToNext)` loop.  The loop
is executed with explicit fuel so that the definition is structural; fuel
`xp.toNat` is an upper bound on the number of iterations whenever
`xpToNext ≥ 1`, because each iteration lowers `xp` by `xpToNext ≥ 1` (for
`xpToNext ≤ 0` the source loop does not terminate at all, and no reachable
state has `xpToNext ≤ 0`). -/
def levelUpFuel : Nat → Character → Character
  | 0, c => c
  | fuel + 1, c =>
    if c.xpToNext ≤ c.xp then levelUpFuel fuel (levelStep c) else c

/-- game-engine.js `applyXP`: add the amount, then run the level-up loop. -/
def applyXP (c : Character) (amount : Int) : Character :=
  levelUpFuel (c.xp + amount).toNat { c with xp := c.xp + amount }

/-- utils.js `resolveDiceCheck`: pure check resolution.
`bonus = statValue + (useSpecialAbility ? SPECIAL_ABILITY_BONUS : 0)`,
`total = roll + bonus`, `passed = total >= difficulty`. -/
def resolveDiceCheck (roll statValue difficulty : Int)
    (useSpecialAbility : Bool) : DiceResult :=
  let bonus := statValue + (if useSpecialAbility then SPECIAL_ABILITY_BONUS else 0)
  let total := roll + bonus
  { roll := roll, bonus := bonus, total := total, difficulty := difficulty,
    passed := decide (difficulty ≤ total) }

/-- console-debug.js (Dice module) `roll`: `char.stats[stat] || 0`. -/
def statLookup (s : Stats) (stat : String) : Int :=
  if stat = "STR" then s.STR
  else if stat = "DEX" then s.DEX
  else if stat = "INT" then s.INTL
  else if stat = "CHA" then s.CHA
  else if stat = "WIL" then s.WIL
  else 0

/-- game-engine.js `waitForDiceRoll`: the special ability applies iff the
checked stat equals the ability's stat and the ability name is truthy
(`char.specialAbility.stat === event.stat && char.specialAbility.name`). -/
def useSpecialForEvent (c : Character) (eventStat : String) : Bool :=
  if c.specialAbility.stat = eventStat ∧ c.specialAbility.name ≠ "" then true else false

/-- utils.js (App module) `bindCharacterCreationScreen`: the ability name is
`abilityNameInput?.value.trim() || 'None'` — a blank or missing input
defaults to the string "None". -/
def defaultAbilityName (input : Option String) : String :=
  match input with
  | some s => if s.trim = "" then "None" else s.trim
  | none => "None"

/-- utils.js (App module) `bindCharacterCreationScreen`: the ability stat is
`abilityStatInput?.value || 'STR'`. -/
def defaultAbilityStat (input : Option String) : String :=
  match input with
  | some s => if s = "" then "STR" else s
  | none => "STR"

/-- utils.js (App module) `bindCharacterCreationScreen`: the special ability
stored on the character at creation time. -/
def charCreateAbility (inputName inputStat inputDesc : Option String) : SpecialAbility :=
  { name := defaultAbilityName inputName
    stat := defaultAbilityStat inputStat
    description := match inputDesc with
      | some s => s.trim
      | none => "" }

/-- game-engine.js `addNPC`: drop when the registry is full, drop when an
NPC with the same name already exists (case-insensitive), otherwise append
with defaults for the optional fields (`|| ''`, `|| 0`). -/
def addNPC (npcs : List NPC) (d : NPCInput) : List NPC :=
  if MAX_KEY_NPCS ≤ npcs.length then npcs
  else if npcs.any (fun n => n.name.toLower == d.name.toLower) then npcs
  else npcs ++ [{ name := d.name
                  role := d.role.getD ""
                  personality := d.personality.getD ""
                  appearance := d.appearance.getD ""
                  relationship := d.relationship.getD 0 }]

/-- game-engine.js `updateNPCs`, one update: `find` locates the first NPC
with a case-insensitively matching name and its relationship is clamped
into `[-100, 100]` after adding `update.change || 0`; unknown names are
ignored. -/
def applyNPCUpdate : List NPC → NPCUpdate → List NPC
  | [], _ => []
  | n :: rest, u =>
    if n.name.toLower = u.name.toLower then
      let r := max (-100) (min 100 (n.relationship + u.change.getD 0))
      { n with relationship := r } :: rest
    else n :: applyNPCUpdate rest u

/-- game-engine.js `updateNPCs`: the updates are applied in order. -/
def updateNPCs (npcs : List NPC) (updates : List NPCUpdate) : List NPC :=
  updates.foldl applyNPCUpdate npcs

/-- api.js `validateGameResponse`: the recognized event types. -/
def validTypes : List String :=
  ["stat_check", "combat", "item_found", "npc_encounter", "story_end"]

/-- api.js `validateGameResponse`: the recognized stats. -/
def validStats : List String := ["STR", "DEX", "INT", "CHA", "WIL"]

/-- A parsed (but not yet validated) primary generator response.  `none`
fields model `undefined` / `null` / wrongly-typed JS values, which the
source's checks treat alike for these fields. -/
structure RawGameResponse where
  story : Option String
  event : Option RawEvent
  item_gained : Option String
  item_lost : Option String
  new_npc : Option NPCInput
  npc_updates : List NPCUpdate
  hp_change : Option Int
  xp_gained : Option Int
  game_end : Option Bool
deriving Repr, DecidableEq

/-- The validated primary response consumed by the engine.  Absent numeric
and boolean fields have been defaulted (`0` / `false`), matching both the
validator's explicit defaulting and the engine's falsy checks. -/
structure GameResponseData where
  story : String
  event : Option RawEvent
  item_gained : Option String
  item_lost : Option String
  new_npc : Option NPCInput
  npc_updates : List NPCUpdate
  hp_change : Int
  xp_gained : Int
  game_end : Bool
deriving Repr, DecidableEq

/-- Result record of `validateGameResponse`. -/
structure GameValidation where
  valid : Bool
  data : GameResponseData
  errors : List String
deriving Repr, DecidableEq

/-- api.js `validateGameResponse`: `validTypes.includes(parsed.event.type)`. -/
def validTypeCheck (e : RawEvent) : Bool :=
  match e.etype with
  | some t => validTypes.contains t
  | none => false

/-- api.js `validateGameResponse`: `validStats.includes(parsed.event.stat)`. -/
def statFieldOk (e : RawEvent) : Bool :=
  match e.stat with
  | some s => validStats.contains s
  | none => false

/-- api.js `validateGameResponse`: difficulty is a number in `[1, 20]`. -/
def diffFieldOk (e : RawEvent) : Bool :=
  match e.difficulty with
  | some d => decide (1 ≤ d ∧ d ≤ 20)
  | none => false

/-- api.js `validateGameResponse`: `['basic','important'].includes(severity)`. -/
def sevFieldOk (e : RawEvent) : Bool :=
  e.severity == some "basic" || e.severity == some "important"

/-- api.js `validateGameResponse`: `parsed.event.difficulty || 12` — the
falsy values (absent, `0`) become `12`. -/
def jsOr12 : Option Int → Int
  | some d => if d = 0 then 12 else d
  | none => 12

/-- api.js `validateGameResponse`, the event block: an unrecognized type
discards the event (with an error); for `stat_check`/`combat` the stat
falls back to `'STR'` (with an error), the difficulty is replaced by
`Math.min(20, Math.max(1, difficulty || 12))` (with an error) and an
unrecognized severity falls back to `'basic'` (silently); any other
recognized type passes through untouched.  Returns the repaired event and
the error strings pushed, in push order. -/
def validateEventField (e : RawEvent) : Option RawEvent × List String :=
  if validTypeCheck e = false then
    (none, ["Invalid event type: " ++ jsShowOptStr e.etype])
  else if e.etype = some "stat_check" ∨ e.etype = some "combat" then
    let statPair : Option String × List String :=
      if statFieldOk e then (e.stat, [])
      else (some "STR", ["Invalid stat: " ++ jsShowOptStr e.stat])
    let diffPair : Option Int × List String :=
      if diffFieldOk e then (e.difficulty, [])
      else (some (min 20 (max 1 (jsOr12 e.difficulty))),
            ["Invalid difficulty: " ++ jsShowOptInt e.difficulty])
    let sev := if sevFieldOk e then e.severity else some "basic"
    (some { e with stat := statPair.1, difficulty := diffPair.1, severity := sev },
     statPair.2 ++ diffPair.2)
  else (some e, [])

/-- api.js `validateGameResponse`.  `parsed` is the `JSON.parse` outcome of
the fence-stripped text (`none` = the parse threw).  On parse failure the
degraded record `(story := raw, event := null)` is returned with
`valid = false`; on success the fields are repaired (story replaced by the
raw text when falsy or not a string, event repaired per
`validateEventField`, absent numerics defaulted) and
`valid = (errors.length == 0)`. -/
def validateGameResponse (raw : String) (parsed : Option RawGameResponse) :
    GameValidation :=
  match parsed with
  | none =>
    { valid := false
      data := { story := raw, event := none, item_gained := none,
                item_lost := none, new_npc := none, npc_updates := [],
                hp_change := 0, xp_gained := 0, game_end := false }
      errors := ["JSON parse failed"] }
  | some p =>
    let storyErrs : List String :=
      if strTruthy p.story then [] else ["Missing or invalid \"story\" field"]
    let story : String :=
      if strTruthy p.story then p.story.getD raw else raw
    let eventPair : Option RawEvent × List String :=
      match p.event with
      | some e => validateEventField e
      | none => (none, [])
    let errors := storyErrs ++ eventPair.2
    { valid := errors.isEmpty
      data := { story := story
                event := eventPair.1
                item_gained := p.item_gained
                item_lost := p.item_lost
                new_npc := p.new_npc
                npc_updates := p.npc_updates
                hp_change := p.hp_change.getD 0
                xp_gained := p.xp_gained.getD 0
                game_end := p.game_end.getD false }
      errors := errors }

/-- A parsed (unvalidated) dice-outcome generator response. -/
structure OutcomeParsed where
  story : Option String
  item_gained : Option String
  item_lost : Option String
  new_npc : Option NPCInput
  npc_updates : List NPCUpdate
  game_end : Option Bool
deriving Repr, DecidableEq

/-- The validated dice-outcome response consumed by the engine. -/
structure OutcomeData where
  story : String
  item_gained : Option String
  item_lost : Option String
  new_npc : Option NPCInput
  npc_updates : List NPCUpdate
  game_end : Bool
deriving Repr, DecidableEq

/-- Result record of `validateDiceOutcome`. -/
structure OutcomeValidation where
  valid : Bool
  data : OutcomeData
deriving Repr, DecidableEq

/-- api.js `validateDiceOutcome`: on parse failure the degraded record
`(story := raw, game_end := false)` is returned with `valid = false`; on
success a falsy/non-string story is replaced by the fence-stripped text and
`game_end` is defaulted to `false`; `valid = true` even when the story was
repaired. -/
def validateDiceOutcome (raw : String) (parsed : Option OutcomeParsed) :
    OutcomeValidation :=
  match parsed with
  | none =>
    { valid := false
      data := { story := raw, item_gained := none, item_lost := none,
                new_npc := none, npc_updates := [], game_end := false } }
  | some p =>
    { valid := true
      data := { story := if strTruthy p.story then p.story.getD "" else stripCodeFences raw
                item_gained := p.item_gained
                item_lost := p.item_lost
                new_npc := p.new_npc
                npc_updates := p.npc_updates
                game_end := p.game_end.getD false } }

/-- A parsed world-generation response (required fields may be missing;
the source only logs missing fields). -/
structure WorldParsed where
  name : Option String
  genre : Option String
  tone : Option String
  details : Option String
  goal : Option String
  startingScenario : Option String
deriving Repr, DecidableEq

/-- Result record of `validateWorldResponse`.  On parse failure the source
returns `data: null` — hence `data` is an `Option` here, and `none` on the
failure path (the `error: e.message` field carries an opaque host exception
message and is not modelled). -/
structure WorldValidation where
  valid : Bool
  data : Option WorldParsed
deriving Repr, DecidableEq

/-- api.js `validateWorldResponse`: a parseable response is returned as-is
with `valid = true` (missing required fields are only logged); a parse
failure yields `valid = false` and `data = null`. -/
def validateWorldResponse (_raw : String) (parsed : Option WorldParsed) :
    WorldValidation :=
  match parsed with
  | some p => { valid := true, data := some p }
  | none => { valid := false, data := none }

/-- game-engine.js `calculateHPLoss`: no loss unless severity is
`'important'`, otherwise `-(Math.floor(difficulty / 3) + 2)`.  The engine
only calls this on validated dice events, whose difficulty is present
(`getD 0` is the unreachable default). -/
def calculateHPLoss (event : RawEvent) : Int :=
  if event.severity ≠ some "important" then 0
  else -(jsFloorDiv (event.difficulty.getD 0) 3 + 2)

/-- game-engine.js `calculateXP`: `5 + Math.floor(difficulty / 2) * 2` on a
pass, a flat `5` for the attempt otherwise. -/
def calculateXP (passed : Bool) (difficulty : Int) : Int :=
  if passed then 5 + jsFloorDiv difficulty 2 * 2 else 5

/-- state.js (AI module) `buildDiceOutcomeMessages`: the `[DICE RESULT]`
request text.  `charHp` is `GameState.getCharacter().hp` at build time,
i.e. the HP after the mechanical deltas were applied. -/
def buildDiceOutcomeMsg (charHp : Int) (ev : RawEvent) (dr : DiceResult)
    (hpLost xpGained : Int) : String :=
  let base := "[DICE RESULT] The player attempted a " ++ jsShowOptStr ev.etype
    ++ " — " ++ statFullName (jsShowOptStr ev.stat) ++ " check (DC "
    ++ jsShowOptInt ev.difficulty ++ ", severity: " ++ jsShowOptStr ev.severity
    ++ "). They rolled " ++ toString dr.roll ++ " + " ++ toString dr.bonus
    ++ " bonus = " ++ toString dr.total ++ ". Result: "
    ++ (if dr.passed then "SUCCESS" else "FAILURE") ++ "."
  let mid :=
    if dr.passed then
      " The player gained " ++ toString xpGained ++ " XP."
        ++ (if strTruthy ev.success_hint then
              " Hint: " ++ ev.success_hint.getD "" ++ "." else "")
    else
      " The player gained " ++ toString xpGained ++ " XP for the attempt."
        ++ (if hpLost < 0 then
              " They took " ++ toString hpLost.natAbs ++ " HP damage (now "
                ++ toString charHp ++ " HP)." else "")
        ++ (if strTruthy ev.fail_hint then
              " Hint: " ++ ev.fail_hint.getD "" ++ "." else "")
  base ++ mid
    ++ " Narrate the outcome. Do NOT include hp_change or xp_gained — the engine already handled those."

/-- game-engine.js `processAIResponse`: an event is dice-eligible iff its
type is `stat_check` or `combat`. -/
def isDiceEvent (e : RawEvent) : Bool :=
  e.etype == some "stat_check" || e.etype == some "combat"

/-- The state delivered by `handleDiceEvent`: updated character / items /
NPCs, the narrations shown, and the (request, response) pair of the outcome
call (`none` when the call failed or the roll never happened). -/
structure DiceFlow where
  character : Character
  items : List String
  keyNpcs : List NPC
  narrations : List String
  outcome : Option (String × OutcomeData)
deriving Repr, DecidableEq

/-- game-engine.js `handleDiceEvent`.  `diceResult` is the value resolved
by `waitForDiceRoll` (`none` when no roll was delivered, in which case the
source returns `null` before any mutation).  `call` is the outcome of the
second generator call: `none` models `sendPrompt` throwing (network or
provider error, the `catch` path), `some (raw, parsed)` a returned text
together with its parse outcome, which `validateDiceOutcome` absorbs —
note that the source destructures only `data` and ignores `valid`, so a
parse failure does NOT reach the `catch` path.  The mechanical HP/XP
deltas are applied before the call parameters are even consulted, exactly
as in the source (`applyHP` / `applyXP` precede the `try` block); on a
pass `hpLost` stays `0`, so the `hpLost < 0` test matches the source's
nested `if (!diceResult.passed)` block. -/
def handleDiceEvent (c : Character) (items : List String) (npcs : List NPC)
    (ev : RawEvent) (diceResult : Option DiceResult)
    (call : Option (String × Option OutcomeParsed)) : DiceFlow :=
  match diceResult with
  | none =>
    { character := c, items := items, keyNpcs := npcs,
      narrations := [], outcome := none }
  | some dr =>
    let xpGained := calculateXP dr.passed (ev.difficulty.getD 0)
    let hpLost := if dr.passed then 0 else calculateHPLoss ev
    let c1 := if hpLost < 0 then applyHP c hpLost else c
    let c2 := applyXP c1 xpGained
    match call with
    | none =>
      let fallback :=
        if dr.passed then "You succeed in your attempt." else "Your attempt fails."
      { character := c2, items := items, keyNpcs := npcs,
        narrations := [fallback], outcome := none }
    | some (raw, parsed) =>
      let outcomeMsg := buildDiceOutcomeMsg c2.hp ev dr hpLost xpGained
      let od := (validateDiceOutcome raw parsed).data
      let narr := if od.story != "" then [od.story] else []
      let items1 := match od.item_gained with
        | some s => if s != "" then items ++ [s] else items
        | none => items
      let items2 := match od.item_lost with
        | some s => if s != "" then jsRemoveFirst items1 s else items1
        | none => items1
      let npcs1 := match od.new_npc with
        | some n => addNPC npcs n
        | none => npcs
      let npcs2 := updateNPCs npcs1 od.npc_updates
      { character := c2, items := items2, keyNpcs := npcs2,
        narrations := narr, outcome := some (outcomeMsg, od) }

/-- state.js: one stored turn.  The timestamp field is not modelled (no
claim depends on it). -/
structure Turn where
  playerAction : Option String
  aiResponse : Option GameResponseData
  diceOutcomeRequest : Option String
  diceOutcomeResponse : Option OutcomeData
deriving Repr, DecidableEq

/-- state.js: the world descriptor (the AI module also reads the optional
`narratorStyle` field, which `resetGame` does not initialize). -/
structure World where
  name : String
  genre : String
  tone : String
  details : String
  goal : String
  startingScenario : String
  summary : String
  narratorStyle : Option String
deriving Repr, DecidableEq

/-- state.js: the game-session state the engine mutates.  Persistence slot
ids, screen state and the unused `aiMessages` / `pendingEvent` fields are
not modelled. -/
structure GameSession where
  status : String
  world : World
  character : Character
  keyNpcs : List NPC
  items : List String
  storyHistory : List Turn
  recentTurns : List Turn
  storySummary : String
  turnCount : Int
  lastSaveTurn : Int
deriving Repr, DecidableEq

/-- state.js `addStoryEntry`: append to the full history and to the
retained window, trimming the window to the last
`RECENT_TURNS_TO_KEEP` entries when it grew beyond the cap. -/
def addStoryEntry (g : GameSession) (t : Turn) : GameSession :=
  let recent0 := g.recentTurns ++ [t]
  let recent :=
    if RECENT_TURNS_TO_KEEP < recent0.length then
      jsSliceLast recent0 RECENT_TURNS_TO_KEEP
    else recent0
  { g with storyHistory := g.storyHistory ++ [t], recentTurns := recent }

/-- game-engine.js `endGame`: `status = outcome === 'victory' ? 'completed'
: 'failed'` (the final save and the epilogue screen are external). -/
def endGameStatus (victory : Bool) : String :=
  if victory then "completed" else "failed"

/-- Result of processing one turn: the updated session, the stored turn
entry, and the narrations shown. -/
structure TurnOutput where
  session : GameSession
  turn : Turn
  narrations : List String
deriving Repr, DecidableEq

/-- game-engine.js `processAIResponse`, tail: store the turn, increment the
turn counter, then check termination (`data.game_end` or the dice outcome's
`game_end` ends the game with victory iff `hp > 0`; otherwise `hp <= 0`
ends it in defeat).  The auto-save trigger only performs an external
persistence write (its `lastSaveTurn` bump happens on the external write's
success and is not modelled). -/
def finishTurn (g : GameSession) (t : Turn) (dataGameEnd : Bool)
    (narr : List String) : TurnOutput :=
  let g1 := addStoryEntry g t
  let g2 := { g1 with turnCount := g1.turnCount + 1 }
  let outcomeEnd := match t.diceOutcomeResponse with
    | some od => od.game_end
    | none => false
  if dataGameEnd || outcomeEnd then
    { session := { g2 with status := endGameStatus (0 < g2.character.hp) },
      turn := t, narrations := narr }
  else if g2.character.hp ≤ 0 then
    { session := { g2 with status := endGameStatus false },
      turn := t, narrations := narr }
  else
    { session := g2, turn := t, narrations := narr }

/-- game-engine.js `processAIResponse`, the non-dice tail: the
generator-declared XP is applied when truthy and positive, then the
declared HP change when truthy and nonzero (`applyXP` runs first, as in
the source). -/
def nonDiceTurn (g : GameSession) (data : GameResponseData)
    (playerAction : Option String) (items2 : List String) (npcs2 : List NPC)
    (narr0 : List String) : TurnOutput :=
  let c1 := if 0 < data.xp_gained then applyXP g.character data.xp_gained
            else g.character
  let c2 := if data.hp_change ≠ 0 then applyHP c1 data.hp_change else c1
  let t : Turn := { playerAction := playerAction, aiResponse := some data,
                    diceOutcomeRequest := none, diceOutcomeResponse := none }
  finishTurn { g with character := c2, items := items2, keyNpcs := npcs2 }
    t data.game_end narr0

/-- game-engine.js `processAIResponse`: show the story, apply item and NPC
effects of the primary response, then branch — a `stat_check`/`combat`
event runs the dice flow (whose outcome pair, when present, is attached to
the turn entry), any other situation applies the declared hp/xp directly —
and finish the turn. -/
def processAIResponse (g : GameSession) (data : GameResponseData)
    (playerAction : Option String) (diceResult : Option DiceResult)
    (call : Option (String × Option OutcomeParsed)) : TurnOutput :=
  let narr0 : List String := if data.story != "" then [data.story] else []
  let items1 := match data.item_gained with
    | some s => if s != "" then g.items ++ [s] else g.items
    | none => g.items
  let items2 := match data.item_lost with
    | some s => if s != "" then jsRemoveFirst items1 s else items1
    | none => items1
  let npcs1 := match data.new_npc with
    | some n => addNPC g.keyNpcs n
    | none => g.keyNpcs
  let npcs2 := updateNPCs npcs1 data.npc_updates
  match data.event with
  | some e =>
    if isDiceEvent e then
      let df := handleDiceEvent g.character items2 npcs2 e diceResult call
      let t : Turn := { playerAction := playerAction, aiResponse := some data,
                        diceOutcomeRequest := df.outcome.map Prod.fst,
                        diceOutcomeResponse := df.outcome.map Prod.snd }
      finishTurn { g with character := df.character, items := df.items,
                          keyNpcs := df.keyNpcs }
        t data.game_end (narr0 ++ df.narrations)
    else
      nonDiceTurn g data playerAction items2 npcs2 narr0
  | none => nonDiceTurn g data playerAction items2 npcs2 narr0

/-- game-engine.js `startNewGame`: the fixed tail of the synthesized
opening request (everything after the starting scenario). -/
def openingTail : String :=
  ". The player character enters the scene. Set the opening — describe where they are and what's immediately happening, then leave them at a moment where they need to decide what to do. Do NOT include a dice event on the first turn. Do NOT use the character's name until it has been introduced in-story (NPCs don't know who the player is yet). Refer to the player as \"you\"."

/-- game-engine.js `startNewGame`: the synthesized opening request text. -/
def openingRequest (w : World) : String :=
  "Begin the adventure. Setting: " ++ w.startingScenario ++ openingTail

/-- game-engine.js `startNewGame`: the opening turn processes the validated
opening response with a `null` player action; nothing else in the engine
differs from an ordinary turn. -/
def startNewGame (g : GameSession) (data : GameResponseData)
    (diceResult : Option DiceResult)
    (call : Option (String × Option OutcomeParsed)) : TurnOutput :=
  processAIResponse g data none diceResult call

/-- Chat message sent to the generator. -/
structure Msg where
  role : String
  content : String
deriving Repr, DecidableEq

/-- JSON rendering of a string (`JSON.stringify` string escaping is not
reproduced; no claim inspects the bytes of a serialized message). -/
def jsonStr (s : String) : String := "\"" ++ s ++ "\""

/-- JSON rendering of a nullable string field. -/
def jsonOptStr : Option String → String
  | some s => jsonStr s
  | none => "null"

/-- An opening brace character, as a string. -/
def lcb : String := "\x7b"

/-- A closing brace character, as a string. -/
def rcb : String := "\x7d"

/-- Rendering of an event object, for `JSON.stringify(turn.aiResponse)`. -/
def stringifyEvent (e : RawEvent) : String :=
  lcb ++ "\"type\":" ++ jsonOptStr e.etype ++ ",\"stat\":" ++ jsonOptStr e.stat
    ++ ",\"difficulty\":"
    ++ (match e.difficulty with | some d => toString d | none => "null")
    ++ ",\"severity\":" ++ jsonOptStr e.severity ++ rcb

/-- state.js (AI module) `buildGameMessages` / `buildDiceOutcomeMessages`
embed `JSON.stringify(turn.aiResponse)` as assistant content.  The host
serializer is modelled by this fixed rendering of the main fields; the
claims about context building concern message roles, pairing and order,
never the byte encoding of a serialized response. -/
def stringifyGameData (d : GameResponseData) : String :=
  lcb ++ "\"story\":" ++ jsonStr d.story
    ++ ",\"event\":"
    ++ (match d.event with | some e => stringifyEvent e | none => "null")
    ++ ",\"hp_change\":" ++ toString d.hp_change
    ++ ",\"xp_gained\":" ++ toString d.xp_gained
    ++ ",\"game_end\":" ++ (if d.game_end then "true" else "false") ++ rcb

/-- Rendering of `JSON.stringify(turn.diceOutcomeResponse)`. -/
def stringifyOutcomeData (od : OutcomeData) : String :=
  lcb ++ "\"story\":" ++ jsonStr od.story
    ++ ",\"game_end\":" ++ (if od.game_end then "true" else "false") ++ rcb

/-- state.js (AI module) `buildGameMessages`, body of the `forEach` over the
retained turns: push the player action when truthy, the serialized primary
response when present, and — whenever the turn carries a dice outcome
response — the (outcome request, serialized outcome response) pair.  The
engine sets the request and the response together; `getD ""` covers the
unreachable null-request case. -/
def turnPush (acc : List Msg) (t : Turn) : List Msg :=
  let acc1 :=
    if strTruthy t.playerAction then
      acc ++ [{ role := "user", content := t.playerAction.getD "" }]
    else acc
  let acc2 := match t.aiResponse with
    | some d => acc1 ++ [{ role := "assistant", content := stringifyGameData d }]
    | none => acc1
  match t.diceOutcomeResponse with
  | some od =>
    acc2 ++ [{ role := "user", content := t.diceOutcomeRequest.getD "" },
             { role := "assistant", content := stringifyOutcomeData od }]
  | none => acc2

/-- state.js (AI module) `buildGameMessages`: an optional previous-summary
system message, then the retained turns in order, then the current player
action last. -/
def buildGameMessages (g : GameSession) (playerAction : String) : List Msg :=
  let base : List Msg :=
    if g.storySummary != "" then
      [{ role := "system", content := "Previously: " ++ g.storySummary }]
    else []
  g.recentTurns.foldl turnPush base ++ [{ role := "user", content := playerAction }]

/-- state.js `buildSaveState`: the serializable snapshot (spreads are deep
copies of immutable-in-Lean values, hence the identity here). -/
structure SaveState where
  world : World
  character : Character
  keyNpcs : List NPC
  items : List String
  recentTurns : List Turn
  storySummary : String
  turnCount : Int
deriving Repr, DecidableEq

/-- state.js `buildSaveState`: project the live session into a snapshot,
retaining only the last `RECENT_TURNS_TO_KEEP` turns. -/
def buildSaveState (g : GameSession) : SaveState :=
  { world := g.world
    character := g.character
    keyNpcs := g.keyNpcs
    items := g.items
    recentTurns := jsSliceLast g.recentTurns RECENT_TURNS_TO_KEEP
    storySummary := g.storySummary
    turnCount := g.turnCount }

/-- state.js `loadFromSave`: rebuild the session from a slot.  `Object.assign`
onto the reset world/character with a snapshot that carries every field is
replacement; the story history is rebuilt from the retained window alone
and `lastSaveTurn` is set to the saved turn count. -/
def loadFromSave (g : GameSession) (slotStatus : String) (gs : SaveState) :
    GameSession :=
  { g with
    status := slotStatus
    world := gs.world
    character := gs.character
    keyNpcs := gs.keyNpcs
    items := gs.items
    recentTurns := gs.recentTurns
    storySummary := gs.storySummary
    turnCount := gs.turnCount
    lastSaveTurn := gs.turnCount
    storyHistory := gs.recentTurns }

/-- The spec's own leveling example character
`(xp 90, xpToNext 100, level 1, hp 100, maxHp 100)`, for the C5 witness. -/
def c5Char : Character :=
  { name := "Hero", gender := "", level := 1, xp := 90, xpToNext := 100,
    hp := 100, maxHp := 100,
    stats := { STR := 2, DEX := 2, INTL := 2, CHA := 2, WIL := 2 },
    specialAbility := { name := "None", stat := "STR", description := "" } }

/-- A character created with a blank ability-name input (ability stat DEX),
used by the C10 witness. -/
def c10Char : Character :=
  { name := "Ash", gender := "unspecified", level := 1, xp := 0,
    xpToNext := 100, hp := DEFAULT_STARTING_HP, maxHp := DEFAULT_STARTING_HP,
    stats := { STR := 1, DEX := 3, INTL := 2, CHA := 2, WIL := 2 },
    specialAbility := charCreateAbility none (some "DEX") none }

/-- A parsed response with a `combat` event whose difficulty 35 is out of
range, whose stat `"LUCK"` is unrecognized and whose severity `"fatal"` is
unrecognized, for the C4 witness. -/
def c4Resp : RawGameResponse :=
  { story := some "A fight breaks out."
    event := some { etype := some "combat", stat := some "LUCK",
                    difficulty := some 35, severity := some "fatal",
                    success_hint := none, fail_hint := none }
    item_gained := none, item_lost := none, new_npc := none
    npc_updates := [], hp_change := none, xp_gained := none
    game_end := none }

/-- A parsed response whose only flaw is an unrecognized stat, for the C2
counterexample: the repair is recorded, which flips `valid` to `false`
although the parse succeeded. -/
def c2Resp : RawGameResponse :=
  { story := some "A tale"
    event := some { etype := some "stat_check", stat := some "LCK",
                    difficulty := some 10, severity := some "weird",
                    success_hint := none, fail_hint := none }
    item_gained := none, item_lost := none, new_npc := none
    npc_updates := [], hp_change := none, xp_gained := none
    game_end := none }

/-- A parsed response whose only flaw is the severity, for the C2 witness:
the severity repair is silent and the response stays `valid = true`. -/
def c2SevResp : RawGameResponse :=
  { story := some "Quiet repair"
    event := some { etype := some "stat_check", stat := some "DEX",
                    difficulty := some 14, severity := some "fatal",
                    success_hint := none, fail_hint := none }
    item_gained := none, item_lost := none, new_npc := none
    npc_updates := [], hp_change := none, xp_gained := none
    game_end := none }

/-- A one-turn live session used by the C7 witness. -/
def c7Turn : Turn :=
  { playerAction := some "look around"
    aiResponse := some { story := "You see a door.", event := none,
                         item_gained := none, item_lost := none,
                         new_npc := none, npc_updates := [], hp_change := 0,
                         xp_gained := 0, game_end := false }
    diceOutcomeRequest := none, diceOutcomeResponse := none }

/-- A small live session used by the C7 witness. -/
def c7Session : GameSession :=
  { status := "active"
    world := { name := "Aether", genre := "fantasy", tone := "grim",
               details := "old ruins", goal := "escape",
               startingScenario := "a cell", summary := "", narratorStyle := none }
    character := { name := "Rin", gender := "", level := 2, xp := 30,
                   xpToNext := 150, hp := 80, maxHp := 110,
                   stats := { STR := 1, DEX := 3, INTL := 2, CHA := 2, WIL := 2 },
                   specialAbility := { name := "Shadowstep", stat := "DEX",
                                       description := "blink" } }
    keyNpcs := [{ name := "Bob", role := "guard", personality := "gruff",
                  appearance := "tall", relationship := -5 }]
    items := ["torch", "rope"]
    storyHistory := [c7Turn], recentTurns := [c7Turn]
    storySummary := "You broke out of the cell.", turnCount := 7,
    lastSaveTurn := 5 }

/-- state.js `resetGame`: the freshly reset session every new game starts
from. -/
def resetSession : GameSession :=
  { status := "active"
    world := { name := "", genre := "", tone := "", details := "", goal := "",
               startingScenario := "", summary := "", narratorStyle := none }
    character := { name := "", gender := "", level := 1, xp := 0,
                   xpToNext := 100, hp := DEFAULT_STARTING_HP,
                   maxHp := DEFAULT_STARTING_HP,
                   stats := { STR := 0, DEX := 0, INTL := 0, CHA := 0, WIL := 0 },
                   specialAbility := { name := "", stat := "STR", description := "" } }
    keyNpcs := [], items := [], storyHistory := [], recentTurns := []
    storySummary := "", turnCount := 0, lastSaveTurn := 0 }

/-- The per-turn message block of the context builder, with each component
present only when the stored turn carries it: the player-action message
when the action is truthy, the serialized narration when present, and the
(outcome-request, outcome-response) pair when the turn has a dice
outcome. -/
def turnContextMsgs (t : Turn) : List Msg :=
  (if strTruthy t.playerAction then
    [{ role := "user", content := t.playerAction.getD "" }]
   else []) ++
  (match t.aiResponse with
   | some d => [{ role := "assistant", content := stringifyGameData d }]
   | none => []) ++
  (match t.diceOutcomeResponse with
   | some od => [{ role := "user", content := t.diceOutcomeRequest.getD "" },
                 { role := "assistant", content := stringifyOutcomeData od }]
   | none => [])

/-- Modelled from the spec's words of C8, for the refinement comparison:
the claim asserts that every retained turn contributes its (player-action,
assistant-narration) pair unconditionally, followed by the dice pair when
present. -/
def claimedTurnMsgs (t : Turn) : List Msg :=
  [{ role := "user", content := t.playerAction.getD "" },
   { role := "assistant", content := (t.aiResponse.map stringifyGameData).getD "" }] ++
  (match t.diceOutcomeResponse with
   | some od => [{ role := "user", content := t.diceOutcomeRequest.getD "" },
                 { role := "assistant", content := stringifyOutcomeData od }]
   | none => [])

/-- Modelled from the spec's words of C8: the whole claimed message list. -/
def claimedGameMessages (g : GameSession) (playerAction : String) : List Msg :=
  (if g.storySummary != "" then
    [{ role := "system", content := "Previously: " ++ g.storySummary }]
   else []) ++
  g.recentTurns.flatMap claimedTurnMsgs ++
  [{ role := "user", content := playerAction }]

/-- A session whose only retained turn is an opening turn (its
`playerAction` is `null`), for the C8 counterexample. -/
def c8Session : GameSession :=
  { resetSession with
    recentTurns := [{ playerAction := none
                      aiResponse := some { story := "The story begins.",
                                           event := none, item_gained := none,
                                           item_lost := none, new_npc := none,
                                           npc_updates := [], hp_change := 0,
                                           xp_gained := 0, game_end := false }
                      diceOutcomeRequest := none
                      diceOutcomeResponse := none }] }

/-- The dice event of the C9 counterexample: a `stat_check` the generator
emitted on the opening turn despite the prompt instruction. -/
def c9Event : RawEvent :=
  { etype := some "stat_check", stat := some "STR", difficulty := some 12,
    severity := some "basic", success_hint := none, fail_hint := none }

/-- An opening-turn generator output carrying a dice event, for C9. -/
def c9Data : GameResponseData :=
  { story := "A chasm blocks your path.", event := some c9Event,
    item_gained := none, item_lost := none, new_npc := none,
    npc_updates := [], hp_change := 0, xp_gained := 0, game_end := false }

/-- A passed roll for the C9 counterexample (15 + 0 vs DC 12). -/
def c9Dice : DiceResult := resolveDiceCheck 15 0 12 false

/-- A successful outcome-narration response for the C9 counterexample. -/
def c9Outcome : OutcomeParsed :=
  { story := some "You leap across.", item_gained := none, item_lost := none,
    new_npc := none, npc_updates := [], game_end := some false }

/-- A dice-free opening output, for the C9 witness. -/
def c9FreeData : GameResponseData :=
  { story := "You wake in a quiet glade.", event := none, item_gained := none,
    item_lost := none, new_npc := none, npc_updates := [], hp_change := 0,
    xp_gained := 0, game_end := false }

/-- The dice event of the C6 witness: an important-severity combat check
at DC 12. -/
def c6Event : RawEvent :=
  { etype := some "combat", stat := some "STR", difficulty := some 12,
    severity := some "important", success_hint := none, fail_hint := none }

/-- A dice turn whose generator also (wrongly) declared hp/xp values, for
the C6 witness: they must be ignored. -/
def c6Data : GameResponseData :=
  { story := "An ogre attacks!", event := some c6Event, item_gained := none,
    item_lost := none, new_npc := none, npc_updates := [],
    hp_change := -40, xp_gained := 99, game_end := false }

/-- A failed roll for the C6 witness (3 + 1 vs DC 12). -/
def c6Dice : DiceResult := resolveDiceCheck 3 1 12 false

/-- A non-dice turn with declared hp/xp, for the C6 witness. -/
def c6NonDiceData : GameResponseData :=
  { story := "You rest by the fire.", event := none, item_gained := none,
    item_lost := none, new_npc := none, npc_updates := [],
    hp_change := 7, xp_gained := 12, game_end := false }

/-- The important-severity stat check of the C1 counterexample. -/
def c1Event : RawEvent :=
  { etype := some "stat_check", stat := some "STR", difficulty := some 12,
    severity := some "important", success_hint := none, fail_hint := none }

/-- A dice turn for C1 (no declared hp/xp). -/
def c1Data : GameResponseData :=
  { story := "Danger!", event := some c1Event, item_gained := none,
    item_lost := none, new_npc := none, npc_updates := [],
    hp_change := 0, xp_gained := 0, game_end := false }

/-- A failed roll for C1 (1 + 0 vs DC 12). -/
def c1Dice : DiceResult := resolveDiceCheck 1 0 12 false

/-- The level-up loop keeps `hp` inside `[0, maxHp]`: each iteration raises
`maxHp` by 10 and caps the healed `hp` at the new maximum. -/
theorem levelUpFuel_hp_invariant : ∀ (fuel : Nat) (c : Character),
    0 ≤ c.hp → c.hp ≤ c.maxHp →
    0 ≤ (levelUpFuel fuel c).hp ∧
      (levelUpFuel fuel c).hp ≤ (levelUpFuel fuel c).maxHp := by
  intro fuel
  induction fuel with
  | zero => intro c h1 h2; simpa [levelUpFuel] using ⟨h1, h2⟩
  | succ n ih =>
    intro c h1 h2
    simp only [levelUpFuel]
    by_cases h : c.xpToNext ≤ c.xp
    · simp only [if_pos h]
      refine ih _ ?_ ?_ <;> · simp only [levelStep]; omega
    · simp only [if_neg h]; exact ⟨h1, h2⟩

/-- With positive `xpToNext`, fuel `xp.toNat` suffices for the level-up
loop to settle, and at the exit `xp < xpToNext` holds. -/
theorem levelUpFuel_xp_settles : ∀ (fuel : Nat) (c : Character),
    1 ≤ c.xpToNext → c.xp.toNat ≤ fuel →
    (levelUpFuel fuel c).xp < (levelUpFuel fuel c).xpToNext := by
  intro fuel
  induction fuel with
  | zero =>
    intro c h1 h2
    simp only [levelUpFuel]
    omega
  | succ n ih =>
    intro c h1 h2
    simp only [levelUpFuel]
    by_cases h : c.xpToNext ≤ c.xp
    · simp only [if_pos h]
      refine ih _ ?_ ?_ <;> simp [levelStep, jsFloorDiv] <;> omega
    · simp only [if_neg h]; omega

/-- C5: for a character with `0 ≤ hp ≤ maxHp`, `maxHp > 0` and
`xpToNext ≥ 1`, `applyHP` sets `hp` to `clamp(hp + delta, 0, maxHp)` for
every integer delta and preserves `0 ≤ hp ≤ maxHp`, and `applyXP` with any
non-negative amount preserves `0 ≤ hp ≤ maxHp` and leaves `xp < xpToNext`
once its (terminating, multi-level) leveling loop settles. -/
theorem c5_progression_invariants (c : Character) (delta amount : Int)
    (hhp0 : 0 ≤ c.hp) (hhp1 : c.hp ≤ c.maxHp) (hmax : 0 < c.maxHp)
    (hxpn : 1 ≤ c.xpToNext) :
    (applyHP c delta).hp = max 0 (min c.maxHp (c.hp + delta)) ∧
    (0 ≤ (applyHP c delta).hp ∧ (applyHP c delta).hp ≤ (applyHP c delta).maxHp) ∧
    (0 ≤ amount →
      (0 ≤ (applyXP c amount).hp ∧
        (applyXP c amount).hp ≤ (applyXP c amount).maxHp) ∧
      (applyXP c amount).xp < (applyXP c amount).xpToNext) := by
  refine ⟨rfl, ?_, ?_⟩
  · simp only [applyHP]
    constructor <;> omega
  · intro hamt
    constructor
    · exact levelUpFuel_hp_invariant _ _ (by simpa using hhp0) (by simpa using hhp1)
    · exact levelUpFuel_xp_settles _ _ (by simpa using hxpn) (by simp)

/-- Witness for C5 at the spec's own example: the character
`(xp 90, xpToNext 100, level 1, hp 100, maxHp 100)` with `delta = -50` and
`amount = +20` (which crosses one level threshold). -/
theorem c5_witness :
    (applyHP c5Char (-50)).hp = max 0 (min c5Char.maxHp (c5Char.hp + (-50))) ∧
    (0 ≤ (applyHP c5Char (-50)).hp ∧
      (applyHP c5Char (-50)).hp ≤ (applyHP c5Char (-50)).maxHp) ∧
    (0 ≤ (20 : Int) →
      (0 ≤ (applyXP c5Char 20).hp ∧
        (applyXP c5Char 20).hp ≤ (applyXP c5Char 20).maxHp) ∧
      (applyXP c5Char 20).xp < (applyXP c5Char 20).xpToNext) :=
  c5_progression_invariants c5Char (-50) 20 (by decide) (by decide) (by decide)
    (by decide)

/-- C10: the character creation screen turns a blank special-ability input
into the name "None"; that name is truthy, so for every later
`stat_check`/`combat` event whose stat equals the ability's stat the
`useSpecial` test of `waitForDiceRoll` fires and `resolveDiceCheck` adds
the +5 `SPECIAL_ABILITY_BONUS` to the d20 total. -/
theorem c10_blank_ability_bonus (inputName inputStat inputDesc : Option String)
    (hblank : inputName = none ∨ ∃ s, inputName = some s ∧ s.trim = "")
    (c : Character)
    (hab : c.specialAbility = charCreateAbility inputName inputStat inputDesc)
    (estat : String) (hstat : estat = c.specialAbility.stat)
    (roll statValue difficulty : Int) :
    c.specialAbility.name = "None" ∧
    useSpecialForEvent c estat = true ∧
    (resolveDiceCheck roll statValue difficulty (useSpecialForEvent c estat)).bonus
      = statValue + SPECIAL_ABILITY_BONUS ∧
    (resolveDiceCheck roll statValue difficulty (useSpecialForEvent c estat)).total
      = roll + (statValue + SPECIAL_ABILITY_BONUS) := by
  have hname : c.specialAbility.name = "None" := by
    rcases hblank with h | ⟨s, hs, hst⟩
    · rw [hab]; simp [charCreateAbility, defaultAbilityName, h]
    · rw [hab]; simp [charCreateAbility, defaultAbilityName, hs, hst]
  have huse : useSpecialForEvent c estat = true := by
    simp [useSpecialForEvent, hstat, hname]
  refine ⟨hname, huse, ?_, ?_⟩ <;> simp [resolveDiceCheck, huse]

/-- Witness for C10: blank ability input, a DEX check at DC 12 with a roll
of 10 and stat value 3 — the bonus is 3 + 5. -/
theorem c10_witness :
    c10Char.specialAbility.name = "None" ∧
    useSpecialForEvent c10Char "DEX" = true ∧
    (resolveDiceCheck 10 3 12 (useSpecialForEvent c10Char "DEX")).bonus
      = 3 + SPECIAL_ABILITY_BONUS ∧
    (resolveDiceCheck 10 3 12 (useSpecialForEvent c10Char "DEX")).total
      = 10 + (3 + SPECIAL_ABILITY_BONUS) :=
  c10_blank_ability_bonus none (some "DEX") none (Or.inl rfl) c10Char rfl
    "DEX" (by decide) 10 3 12

/-- C3 counterexample: on an unparseable input the world-generation
validator returns `data = null` (`none`) — no usable record, and in
particular no `story` field equal to the raw text — refuting the claim for
that validator variant. -/
theorem c3_counterexample :
    (validateWorldResponse "not json" none).data = none ∧
    (validateWorldResponse "not json" none).valid = false :=
  ⟨rfl, rfl⟩

/-- C3 amended: every validator variant is a total function of the raw
text and the parse outcome.  For every unparseable raw input, the
primary-turn validator yields `valid = false`, `story` = the raw text and
`event = null`, and the dice-outcome validator yields `valid = false`,
`story` = the raw text and `game_end = false` — the degraded turn is
displayable.  The world validator, however, degrades to `valid = false`
with `data = null` rather than a usable record. -/
theorem c3_validators_degrade (raw : String) :
    (validateGameResponse raw none).valid = false ∧
    (validateGameResponse raw none).data.story = raw ∧
    (validateGameResponse raw none).data.event = none ∧
    (validateGameResponse raw none).errors = ["JSON parse failed"] ∧
    (validateDiceOutcome raw none).valid = false ∧
    (validateDiceOutcome raw none).data.story = raw ∧
    (validateDiceOutcome raw none).data.game_end = false ∧
    (validateWorldResponse raw none).valid = false ∧
    (validateWorldResponse raw none).data = none :=
  ⟨rfl, rfl, rfl, rfl, rfl, rfl, rfl, rfl, rfl⟩

/-- C4: for every parsed response carrying an event, an unrecognized event
type nulls the event and records an error; for `stat_check`/`combat`
events the validated difficulty always lands in `[1, 20]` (clamping every
out-of-range or absent value), an unrecognized stat falls back to the
fixed default `"STR"`, and an unrecognized severity falls back to
`"basic"`. -/
theorem c4_event_repair (raw : String) (p : RawGameResponse) (e : RawEvent)
    (hev : p.event = some e) :
    (validTypeCheck e = false →
      (validateGameResponse raw (some p)).data.event = none ∧
      ("Invalid event type: " ++ jsShowOptStr e.etype)
        ∈ (validateGameResponse raw (some p)).errors) ∧
    (∀ t, e.etype = some t → (t = "stat_check" ∨ t = "combat") →
      ∃ e', (validateGameResponse raw (some p)).data.event = some e' ∧
        (∃ d', e'.difficulty = some d' ∧ 1 ≤ d' ∧ d' ≤ 20) ∧
        (statFieldOk e = false → e'.stat = some "STR") ∧
        (sevFieldOk e = false → e'.severity = some "basic")) := by
  constructor
  · intro hbad
    simp [validateGameResponse, hev, validateEventField, hbad]
  · intro t ht hdice
    have hvt : validTypeCheck e = true := by
      rcases hdice with h | h <;> simp [validTypeCheck, ht, h, validTypes]
    have hcond : e.etype = some "stat_check" ∨ e.etype = some "combat" := by
      rcases hdice with h | h
      · exact Or.inl (h ▸ ht)
      · exact Or.inr (h ▸ ht)
    refine ⟨{ e with
        stat := if statFieldOk e then e.stat else some "STR"
        difficulty := if diffFieldOk e then e.difficulty
                      else some (min 20 (max 1 (jsOr12 e.difficulty)))
        severity := if sevFieldOk e then e.severity else some "basic" },
      ?_, ?_, ?_, ?_⟩
    · by_cases hs : statFieldOk e <;> by_cases hdf : diffFieldOk e <;>
        simp [validateGameResponse, hev, validateEventField, hvt, hcond, hs, hdf]
    · by_cases hdf : diffFieldOk e
      · rcases hdd : e.difficulty with _ | d
        · simp [diffFieldOk, hdd] at hdf
        · refine ⟨d, by simp [hdf, hdd], ?_, ?_⟩ <;>
            · simp [diffFieldOk, hdd] at hdf; omega
      · refine ⟨min 20 (max 1 (jsOr12 e.difficulty)), by simp [hdf], ?_, ?_⟩ <;> omega
    · intro hs; simp [hs]
    · intro hsv; simp [hsv]

/-- Witness for C4 at `c4Resp`: the event survives with stat repaired to
`"STR"`, difficulty clamped into `[1, 20]` and severity repaired to
`"basic"`. -/
theorem c4_witness :
    ∃ e', (validateGameResponse "raw" (some c4Resp)).data.event = some e' ∧
      (∃ d', e'.difficulty = some d' ∧ 1 ≤ d' ∧ d' ≤ 20) ∧
      (statFieldOk { etype := some "combat", stat := some "LUCK",
                     difficulty := some 35, severity := some "fatal",
                     success_hint := none, fail_hint := none } = false →
        e'.stat = some "STR") ∧
      (sevFieldOk { etype := some "combat", stat := some "LUCK",
                    difficulty := some 35, severity := some "fatal",
                    success_hint := none, fail_hint := none } = false →
        e'.severity = some "basic") :=
  (c4_event_repair "raw" c4Resp _ rfl).2 "combat" rfl (Or.inr rfl)

/-- C2 counterexample: the parse succeeded and the stat was repaired with a
recorded error, yet `valid = false` — refuting "valid is false only when
the entire JSON parse failed".  The severity was also repaired (to
`"basic"`) with NO recorded error, refuting "each field repair is
recorded". -/
theorem c2_counterexample :
    (validateGameResponse "raw text" (some c2Resp)).valid = false ∧
    (validateGameResponse "raw text" (some c2Resp)).errors
      = ["Invalid stat: LCK"] ∧
    (validateGameResponse "raw text" (some c2Resp)).data.event
      = some { etype := some "stat_check", stat := some "STR",
               difficulty := some 10, severity := some "basic",
               success_hint := none, fail_hint := none } := by
  refine ⟨?_, ?_, ?_⟩ <;> decide

/-- C2 amended: repairs of the story, event-type, stat and difficulty
fields are each recorded as a human-readable error string, but the
severity fallback (and the defaulting of absent numeric fields) is silent;
`valid` equals `errors.isEmpty`, so any *recorded* repair flips `valid` to
`false` even though the response parsed — only a response whose sole
repairs are silent ones (e.g. severity) keeps `valid = true`; a parse
failure always yields `valid = false`. -/
theorem c2_validator_errors (raw : String) (p : RawGameResponse) :
    ((validateGameResponse raw (some p)).valid
        = (validateGameResponse raw (some p)).errors.isEmpty) ∧
    ((validateGameResponse raw none).valid = false) ∧
    (strTruthy p.story = false →
      "Missing or invalid \"story\" field"
        ∈ (validateGameResponse raw (some p)).errors) ∧
    (∀ e, p.event = some e → validTypeCheck e = false →
      ("Invalid event type: " ++ jsShowOptStr e.etype)
        ∈ (validateGameResponse raw (some p)).errors) ∧
    (∀ e t, p.event = some e → e.etype = some t →
      (t = "stat_check" ∨ t = "combat") →
      (statFieldOk e = false →
        ("Invalid stat: " ++ jsShowOptStr e.stat)
          ∈ (validateGameResponse raw (some p)).errors) ∧
      (diffFieldOk e = false →
        ("Invalid difficulty: " ++ jsShowOptInt e.difficulty)
          ∈ (validateGameResponse raw (some p)).errors)) ∧
    (∀ e t, p.event = some e → e.etype = some t →
      (t = "stat_check" ∨ t = "combat") →
      strTruthy p.story = true → statFieldOk e = true → diffFieldOk e = true →
      (validateGameResponse raw (some p)).errors = [] ∧
      (validateGameResponse raw (some p)).valid = true) := by
  refine ⟨by simp [validateGameResponse], by simp [validateGameResponse], ?_, ?_, ?_, ?_⟩
  · intro hstory
    simp [validateGameResponse, hstory]
  · intro e hev hbad
    simp [validateGameResponse, hev, validateEventField, hbad]
  · intro e t hev ht hdice
    have hvt : validTypeCheck e = true := by
      rcases hdice with h | h <;> simp [validTypeCheck, ht, h, validTypes]
    have hcond : e.etype = some "stat_check" ∨ e.etype = some "combat" := by
      rcases hdice with h | h
      · exact Or.inl (h ▸ ht)
      · exact Or.inr (h ▸ ht)
    constructor
    · intro hs
      simp [validateGameResponse, hev, validateEventField, hvt, hcond, hs]
    · intro hd
      by_cases hs : statFieldOk e <;>
        simp [validateGameResponse, hev, validateEventField, hvt, hcond, hs, hd]
  · intro e t hev ht hdice hstory hs hd
    have hvt : validTypeCheck e = true := by
      rcases hdice with h | h <;> simp [validTypeCheck, ht, h, validTypes]
    have hcond : e.etype = some "stat_check" ∨ e.etype = some "combat" := by
      rcases hdice with h | h
      · exact Or.inl (h ▸ ht)
      · exact Or.inr (h ▸ ht)
    constructor <;>
      simp [validateGameResponse, hev, validateEventField, hvt, hcond, hs, hd, hstory]

/-- Witness for C2 at `c2SevResp`: a severity-only repair records nothing
and keeps `valid = true`. -/
theorem c2_witness :
    (validateGameResponse "r" (some c2SevResp)).errors = [] ∧
    (validateGameResponse "r" (some c2SevResp)).valid = true :=
  (c2_validator_errors "r" c2SevResp).2.2.2.2.2 _ "stat_check" rfl rfl
    (Or.inl rfl) (by decide) (by decide) (by decide)

/-- `slice(-n)` of a list that already fits returns the list itself. -/
theorem jsSliceLast_of_le {α : Type} (l : List α) (n : Nat)
    (h : l.length ≤ n) : jsSliceLast l n = l := by
  simp [jsSliceLast, Nat.sub_eq_zero_of_le h]

/-- `finishTurn` stores exactly the turn entry it was given. -/
theorem finishTurn_turn (g : GameSession) (t : Turn) (b : Bool)
    (narr : List String) : (finishTurn g t b narr).turn = t := by
  simp only [finishTurn]
  split
  · rfl
  · split <;> rfl

/-- `finishTurn` leaves the character untouched. -/
theorem finishTurn_character (g : GameSession) (t : Turn) (b : Bool)
    (narr : List String) : (finishTurn g t b narr).session.character = g.character := by
  simp only [finishTurn]
  split
  · rfl
  · split <;> rfl

/-- `finishTurn`'s retained window is the appended (and trimmed) one. -/
theorem finishTurn_recentTurns (g : GameSession) (t : Turn) (b : Bool)
    (narr : List String) :
    (finishTurn g t b narr).session.recentTurns = (addStoryEntry g t).recentTurns := by
  simp only [finishTurn]
  split
  · rfl
  · split <;> rfl

/-- C7: a snapshot built from a live session (whose retained window fits
the cap, as the engine guarantees) reconstructs, via `loadFromSave`, a
session with the same world, character (nested stats/ability included),
NPC list, items, retained window, story summary and turn counter; the
conversation context built for the next turn is identical, and only the
full history collapses to the retained window. -/
theorem c7_save_roundtrip (g base : GameSession) (a : String)
    (h : g.recentTurns.length ≤ RECENT_TURNS_TO_KEEP) :
    (loadFromSave base g.status (buildSaveState g)).character = g.character ∧
    (loadFromSave base g.status (buildSaveState g)).world = g.world ∧
    (loadFromSave base g.status (buildSaveState g)).keyNpcs = g.keyNpcs ∧
    (loadFromSave base g.status (buildSaveState g)).items = g.items ∧
    (loadFromSave base g.status (buildSaveState g)).recentTurns = g.recentTurns ∧
    (loadFromSave base g.status (buildSaveState g)).storySummary = g.storySummary ∧
    (loadFromSave base g.status (buildSaveState g)).turnCount = g.turnCount ∧
    (loadFromSave base g.status (buildSaveState g)).status = g.status ∧
    buildGameMessages (loadFromSave base g.status (buildSaveState g)) a
      = buildGameMessages g a ∧
    (loadFromSave base g.status (buildSaveState g)).storyHistory = g.recentTurns := by
  have hr : jsSliceLast g.recentTurns RECENT_TURNS_TO_KEEP = g.recentTurns :=
    jsSliceLast_of_le _ _ h
  have hrec : (loadFromSave base g.status (buildSaveState g)).recentTurns
      = g.recentTurns := by
    simp [loadFromSave, buildSaveState, hr]
  refine ⟨rfl, rfl, rfl, rfl, hrec, rfl, rfl, rfl, ?_,
    by simp [loadFromSave, buildSaveState, hr]⟩
  simp only [buildGameMessages, hrec]
  rfl

/-- Witness for C7: round-tripping `c7Session` through a snapshot onto a
reset base preserves every engine-visible input of the next turn. -/
theorem c7_witness :
    (loadFromSave resetSession c7Session.status (buildSaveState c7Session)).character
      = c7Session.character ∧
    (loadFromSave resetSession c7Session.status (buildSaveState c7Session)).world
      = c7Session.world ∧
    (loadFromSave resetSession c7Session.status (buildSaveState c7Session)).keyNpcs
      = c7Session.keyNpcs ∧
    (loadFromSave resetSession c7Session.status (buildSaveState c7Session)).items
      = c7Session.items ∧
    (loadFromSave resetSession c7Session.status (buildSaveState c7Session)).recentTurns
      = c7Session.recentTurns ∧
    (loadFromSave resetSession c7Session.status (buildSaveState c7Session)).storySummary
      = c7Session.storySummary ∧
    (loadFromSave resetSession c7Session.status (buildSaveState c7Session)).turnCount
      = c7Session.turnCount ∧
    (loadFromSave resetSession c7Session.status (buildSaveState c7Session)).status
      = c7Session.status ∧
    buildGameMessages (loadFromSave resetSession c7Session.status (buildSaveState c7Session)) "open the door"
      = buildGameMessages c7Session "open the door" ∧
    (loadFromSave resetSession c7Session.status (buildSaveState c7Session)).storyHistory
      = c7Session.recentTurns :=
  c7_save_roundtrip c7Session resetSession "open the door" (by decide)

/-- One `forEach` step of the context builder appends the turn's block. -/
theorem turnPush_eq (acc : List Msg) (t : Turn) :
    turnPush acc t = acc ++ turnContextMsgs t := by
  unfold turnPush turnContextMsgs
  by_cases hp : strTruthy t.playerAction <;>
    cases t.aiResponse <;> cases t.diceOutcomeResponse <;> simp [hp]

/-- Folding the context builder over the retained turns flattens to the
concatenation of the per-turn blocks. -/
theorem foldl_turnPush (l : List Turn) (acc : List Msg) :
    l.foldl turnPush acc = acc ++ l.flatMap turnContextMsgs := by
  induction l generalizing acc with
  | nil => simp
  | cons t ts ih => simp [turnPush_eq, ih]

/-- C8 counterexample: for a retained opening turn (null player action) the
builder emits no user message at all for that turn — the produced list has
just 2 messages (assistant narration, then the current action), not the
claimed (player-action, assistant-narration) pair plus action. -/
theorem c8_counterexample :
    buildGameMessages c8Session "go north"
      ≠ claimedGameMessages c8Session "go north" ∧
    (buildGameMessages c8Session "go north").length = 2 ∧
    (buildGameMessages c8Session "go north").map Msg.role
      = ["assistant", "user"] := by
  refine ⟨?_, ?_, ?_⟩ <;> decide

/-- C8 amended: the context for a turn is the optional previous-summary
system message, then for each retained turn in chronological order its
player-action message (only when the turn has a truthy action — the
opening turn has none), its serialized assistant narration (when present)
and, whenever the turn has a dice outcome, the (outcome-request,
outcome-response) pair, and finally the current player action last. -/
theorem c8_context_messages (g : GameSession) (a : String) :
    buildGameMessages g a =
      (if g.storySummary != "" then
        [{ role := "system", content := "Previously: " ++ g.storySummary }]
       else []) ++
      g.recentTurns.flatMap turnContextMsgs ++
      [{ role := "user", content := a }] := by
  simp only [buildGameMessages]
  rw [foldl_turnPush]

/-- C9 counterexample: nothing in the engine suppresses a dice event on the
opening turn — when the generator's opening output carries a `stat_check`,
the dice flow runs exactly as on any later turn: the stored opening turn
carries a dice-outcome request and the character already earned the
mechanical dice XP (`calculateXP true 12 = 17`). -/
theorem c9_counterexample :
    (startNewGame resetSession c9Data (some c9Dice)
        (some ("x", some c9Outcome))).turn.diceOutcomeRequest ≠ none ∧
    (startNewGame resetSession c9Data (some c9Dice)
        (some ("x", some c9Outcome))).session.character.xp
      = resetSession.character.xp + 17 := by
  constructor <;> decide

set_option maxRecDepth 8192 in
/-- C9 amended: the opening turn (null player action, fresh session)
always appends exactly one Turn to the retained window, and its synthesized
request asks the generator — as prompt text only — not to include a dice
event; the engine itself does not enforce that, and a returned
`stat_check`/`combat` event runs the dice flow as on any other turn. -/
theorem c9_opening_turn (g : GameSession) (data : GameResponseData)
    (dr : Option DiceResult) (call : Option (String × Option OutcomeParsed))
    (hfresh : g.recentTurns = []) :
    (startNewGame g data dr call).session.recentTurns
      = [(startNewGame g data dr call).turn] ∧
    (startNewGame g data dr call).turn.playerAction = none ∧
    (∃ pre post : String, openingRequest g.world
        = pre ++ ("Do NOT include a dice event on the first turn." ++ post)) := by
  refine ⟨?_, ?_, ?_⟩
  · unfold startNewGame
    rcases hev : data.event with _ | e
    · simp only [processAIResponse, hev, nonDiceTurn, finishTurn_recentTurns,
        finishTurn_turn, addStoryEntry, hfresh]
      simp [RECENT_TURNS_TO_KEEP]
    · by_cases hd : isDiceEvent e <;>
        · simp only [processAIResponse, hev, hd, nonDiceTurn, if_true, if_false,
            Bool.false_eq_true, finishTurn_recentTurns, finishTurn_turn,
            addStoryEntry, hfresh]
          simp [RECENT_TURNS_TO_KEEP]
  · unfold startNewGame
    rcases hev : data.event with _ | e
    · simp [processAIResponse, hev, nonDiceTurn, finishTurn_turn]
    · by_cases hd : isDiceEvent e <;>
        simp [processAIResponse, hev, hd, nonDiceTurn, finishTurn_turn]
  · have hT : openingTail
        = ". The player character enters the scene. Set the opening — describe where they are and what's immediately happening, then leave them at a moment where they need to decide what to do. "
          ++ ("Do NOT include a dice event on the first turn."
            ++ " Do NOT use the character's name until it has been introduced in-story (NPCs don't know who the player is yet). Refer to the player as \"you\".") := by
      decide
    refine ⟨"Begin the adventure. Setting: " ++ g.world.startingScenario
        ++ ". The player character enters the scene. Set the opening — describe where they are and what's immediately happening, then leave them at a moment where they need to decide what to do. ",
      " Do NOT use the character's name until it has been introduced in-story (NPCs don't know who the player is yet). Refer to the player as \"you\".", ?_⟩
    unfold openingRequest
    rw [hT, ← String.append_assoc]

/-- Witness for C9: the opening turn for a dice-free opening output on a
fresh session stores exactly one retained turn with a null action. -/
theorem c9_witness :
    (startNewGame resetSession c9FreeData none none).session.recentTurns
      = [(startNewGame resetSession c9FreeData none none).turn] ∧
    (startNewGame resetSession c9FreeData none none).turn.playerAction = none ∧
    (∃ pre post : String, openingRequest resetSession.world
        = pre ++ ("Do NOT include a dice event on the first turn." ++ post)) :=
  c9_opening_turn resetSession c9FreeData none none rfl

/-- The character delivered by the dice flow is the mechanical application
of the engine's own formulas, identical for every outcome-call result
(the deltas are applied before the call is consulted). -/
theorem handleDiceEvent_character (c : Character) (items : List String)
    (npcs : List NPC) (e : RawEvent) (dr : DiceResult)
    (call : Option (String × Option OutcomeParsed)) :
    (handleDiceEvent c items npcs e (some dr) call).character =
      applyXP (if (if dr.passed then 0 else calculateHPLoss e) < 0
               then applyHP c (if dr.passed then 0 else calculateHPLoss e)
               else c)
              (calculateXP dr.passed (e.difficulty.getD 0)) := by
  rcases call with _ | ⟨raw, parsed⟩ <;> simp [handleDiceEvent]

/-- For a dice-governed turn the resulting character is given by the
engine's two pure formulas alone. -/
theorem processAIResponse_dice_character (g : GameSession)
    (data : GameResponseData) (pa : Option String) (dr : DiceResult)
    (call : Option (String × Option OutcomeParsed)) (e : RawEvent) (d : Int)
    (hev : data.event = some e) (hdi : isDiceEvent e = true)
    (hdiff : e.difficulty = some d) (hd1 : 1 ≤ d) :
    (processAIResponse g data pa (some dr) call).session.character =
      applyXP (if dr.passed = false ∧ e.severity = some "important"
               then applyHP g.character (-(jsFloorDiv d 3 + 2))
               else g.character)
              (if dr.passed then 5 + jsFloorDiv d 2 * 2 else 5) := by
  simp only [processAIResponse, hev, hdi, if_true, finishTurn_character]
  rw [handleDiceEvent_character]
  rw [hdiff]
  cases hpass : dr.passed with
  | true =>
    simp [calculateXP]
  | false =>
    by_cases hsev : e.severity = some "important"
    · have h2 : (-2 : Int) < jsFloorDiv d 3 := by
        simp only [jsFloorDiv]; omega
      simp [calculateXP, calculateHPLoss, hsev, hdiff, h2]
    · simp [calculateXP, calculateHPLoss, hsev, hdiff]

/-- C6: for every resolved dice check the applied HP/XP deltas are exactly
the engine's formulas — HP `-(floor(d/3)+2)` only on an important-severity
failure, XP `5 + floor(d/2)*2` on success and a flat `5` on failure — and
the generator-declared `hp_change`/`xp_gained` are ignored (changing them
changes nothing); for every non-dice turn the declared values are applied
directly (XP first, then HP, the latter clamped by `applyHP` alone). -/
theorem c6_mechanical_deltas :
    (∀ (g : GameSession) (data : GameResponseData) (pa : Option String)
        (dr : DiceResult) (call : Option (String × Option OutcomeParsed))
        (e : RawEvent) (d : Int),
      data.event = some e → isDiceEvent e = true → e.difficulty = some d →
      1 ≤ d →
      ((processAIResponse g data pa (some dr) call).session.character =
        applyXP (if dr.passed = false ∧ e.severity = some "important"
                 then applyHP g.character (-(jsFloorDiv d 3 + 2))
                 else g.character)
                (if dr.passed then 5 + jsFloorDiv d 2 * 2 else 5)) ∧
      ∀ hp' xp',
        (processAIResponse g { data with hp_change := hp', xp_gained := xp' }
            pa (some dr) call).session.character =
          (processAIResponse g data pa (some dr) call).session.character) ∧
    (∀ (g : GameSession) (data : GameResponseData) (pa : Option String)
        (dr : Option DiceResult) (call : Option (String × Option OutcomeParsed)),
      (data.event = none ∨ ∃ e, data.event = some e ∧ isDiceEvent e = false) →
      (processAIResponse g data pa dr call).session.character =
        (if data.hp_change ≠ 0
         then applyHP (if 0 < data.xp_gained
                       then applyXP g.character data.xp_gained
                       else g.character) data.hp_change
         else (if 0 < data.xp_gained
               then applyXP g.character data.xp_gained
               else g.character))) := by
  constructor
  · intro g data pa dr call e d hev hdi hdiff hd1
    refine ⟨processAIResponse_dice_character g data pa dr call e d hev hdi hdiff hd1, ?_⟩
    intro hp' xp'
    rw [processAIResponse_dice_character g _ pa dr call e d (by simp [hev]) hdi hdiff hd1,
        processAIResponse_dice_character g data pa dr call e d hev hdi hdiff hd1]
  · intro g data pa dr call hnd
    rcases hnd with hev | ⟨e, hev, hdi⟩
    · simp [processAIResponse, hev, nonDiceTurn, finishTurn_character]
    · simp [processAIResponse, hev, hdi, nonDiceTurn, finishTurn_character]

/-- Witness for C6: the important-severity failed DC-12 check inflicts the
formula deltas regardless of the declared `hp_change := -40` /
`xp_gained := 99`, and the non-dice turn applies the declared values. -/
theorem c6_witness :
    ((processAIResponse resetSession c6Data none (some c6Dice) none).session.character =
      applyXP (if c6Dice.passed = false ∧ c6Event.severity = some "important"
               then applyHP resetSession.character (-(jsFloorDiv 12 3 + 2))
               else resetSession.character)
              (if c6Dice.passed then 5 + jsFloorDiv 12 2 * 2 else 5)) ∧
    ((processAIResponse resetSession { c6Data with hp_change := 0, xp_gained := 0 }
        none (some c6Dice) none).session.character =
      (processAIResponse resetSession c6Data none (some c6Dice) none).session.character) ∧
    ((processAIResponse resetSession c6NonDiceData none none none).session.character =
      (if c6NonDiceData.hp_change ≠ 0
       then applyHP (if 0 < c6NonDiceData.xp_gained
                     then applyXP resetSession.character c6NonDiceData.xp_gained
                     else resetSession.character) c6NonDiceData.hp_change
       else (if 0 < c6NonDiceData.xp_gained
             then applyXP resetSession.character c6NonDiceData.xp_gained
             else resetSession.character))) :=
  ⟨(c6_mechanical_deltas.1 resetSession c6Data none c6Dice none c6Event 12
      rfl (by decide) rfl (by decide)).1,
   (c6_mechanical_deltas.1 resetSession c6Data none c6Dice none c6Event 12
      rfl (by decide) rfl (by decide)).2 0 0,
   c6_mechanical_deltas.2 resetSession c6NonDiceData none none none (Or.inl rfl)⟩

/-- C1 counterexample: when the outcome-narration text does not PARSE, the
engine does not fall back to the stock narration and does not leave the
Turn's dice fields null — `validateDiceOutcome` absorbs the parse failure,
the raw text ("garbled") is shown as the narration and the degraded
response is attached to the Turn; only the mechanical deltas behave as
claimed (HP 100 → 94, XP 0 → 5). -/
theorem c1_counterexample :
    (processAIResponse resetSession c1Data none (some c1Dice)
        (some ("garbled", none))).turn.diceOutcomeResponse ≠ none ∧
    (processAIResponse resetSession c1Data none (some c1Dice)
        (some ("garbled", none))).narrations = ["Danger!", "garbled"] ∧
    (processAIResponse resetSession c1Data none (some c1Dice)
        (some ("garbled", none))).session.character.hp = 94 ∧
    (processAIResponse resetSession c1Data none (some c1Dice)
        (some ("garbled", none))).session.character.xp = 5 := by
  refine ⟨?_, ?_, ?_, ?_⟩ <;> decide

/-- C1 amended: for every resolved dice check the mechanical deltas are
applied before and independently of the outcome-narration call — the
resulting character is the same whatever that call returns, and equals the
pre-call mechanical application.  When the call fails with a NETWORK /
provider error (`sendPrompt` throws): the deltas stand, the fixed stock
narration ("You succeed in your attempt." / "Your attempt fails.") is
shown, and the Turn keeps `diceOutcomeRequest = diceOutcomeResponse =
null`.  A PARSE failure, by contrast, is absorbed by the dice-outcome
validator: the deltas stand, but the raw text is narrated and the request
plus the degraded response are attached to the Turn (the request text being
built from the post-delta HP). -/
theorem c1_dice_outcome_failure (c : Character) (items : List String)
    (npcs : List NPC) (e : RawEvent) (dr : DiceResult)
    (call : Option (String × Option OutcomeParsed)) :
    ((handleDiceEvent c items npcs e (some dr) call).character
      = (handleDiceEvent c items npcs e (some dr) none).character) ∧
    ((handleDiceEvent c items npcs e (some dr) none).character
      = applyXP (if (if dr.passed then 0 else calculateHPLoss e) < 0
                 then applyHP c (if dr.passed then 0 else calculateHPLoss e)
                 else c)
                (calculateXP dr.passed (e.difficulty.getD 0))) ∧
    ((handleDiceEvent c items npcs e (some dr) none).outcome = none) ∧
    ((handleDiceEvent c items npcs e (some dr) none).narrations
      = [if dr.passed then "You succeed in your attempt."
         else "Your attempt fails."]) ∧
    (∀ raw : String, raw ≠ "" →
      ((handleDiceEvent c items npcs e (some dr) (some (raw, none))).outcome
        = some (buildDiceOutcomeMsg
                  (handleDiceEvent c items npcs e (some dr) none).character.hp
                  e dr
                  (if dr.passed then 0 else calculateHPLoss e)
                  (calculateXP dr.passed (e.difficulty.getD 0)),
                { story := raw, item_gained := none, item_lost := none,
                  new_npc := none, npc_updates := [], game_end := false })) ∧
      (handleDiceEvent c items npcs e (some dr) (some (raw, none))).narrations
        = [raw]) ∧
    (∀ (g : GameSession) (data : GameResponseData) (pa : Option String),
      data.event = some e → isDiceEvent e = true →
      (processAIResponse g data pa (some dr) none).turn.diceOutcomeRequest
        = none ∧
      (processAIResponse g data pa (some dr) none).turn.diceOutcomeResponse
        = none) := by
  refine ⟨?_, ?_, ?_, ?_, ?_, ?_⟩
  · rw [handleDiceEvent_character, handleDiceEvent_character]
  · rw [handleDiceEvent_character]
  · simp [handleDiceEvent]
  · simp [handleDiceEvent]
  · intro raw hraw
    constructor
    · simp [handleDiceEvent, validateDiceOutcome]
    · simp [handleDiceEvent, validateDiceOutcome, hraw]
  · intro g data pa hev hdi
    constructor <;>
      simp [processAIResponse, hev, hdi, finishTurn_turn, handleDiceEvent]

/-- Witness for C1: the failed important DC-12 check with a network
failure keeps the deltas, shows the stock failure text and leaves the
Turn's dice fields null; with a parse failure the pair is attached. -/
theorem c1_witness :
    ((handleDiceEvent resetSession.character [] [] c1Event (some c1Dice)
        (some ("garbled", none))).character
      = (handleDiceEvent resetSession.character [] [] c1Event (some c1Dice)
          none).character) ∧
    ((handleDiceEvent resetSession.character [] [] c1Event (some c1Dice)
        none).outcome = none) ∧
    ((handleDiceEvent resetSession.character [] [] c1Event (some c1Dice)
        none).narrations
      = [if c1Dice.passed then "You succeed in your attempt."
         else "Your attempt fails."]) ∧
    ((handleDiceEvent resetSession.character [] [] c1Event (some c1Dice)
        (some ("garbled", none))).narrations = ["garbled"]) ∧
    ((processAIResponse resetSession c1Data none (some c1Dice) none).turn.diceOutcomeRequest
        = none ∧
     (processAIResponse resetSession c1Data none (some c1Dice) none).turn.diceOutcomeResponse
        = none) :=
  ⟨(c1_dice_outcome_failure resetSession.character [] [] c1Event c1Dice
      (some ("garbled", none))).1,
   (c1_dice_outcome_failure resetSession.character [] [] c1Event c1Dice
      (some ("garbled", none))).2.2.1,
   (c1_dice_outcome_failure resetSession.character [] [] c1Event c1Dice
      (some ("garbled", none))).2.2.2.1,
   ((c1_dice_outcome_failure resetSession.character [] [] c1Event c1Dice
      (some ("garbled", none))).2.2.2.2.1 "garbled" (by decide)).2,
   (c1_dice_outcome_failure resetSession.character [] [] c1Event c1Dice
      (some ("garbled", none))).2.2.2.2.2 resetSession c1Data none rfl
      (by decide)⟩

end RPG
